import Mathlib

/-!
Verification of the job-queue node state machine
(res/job_queue/job_queue_node.py).

The development shallowly embeds the JobQueueNode class: the mutable
Python object becomes an explicit record NodeState, the wall clock is a
monotone natural-number counter advanced by time.sleep(1), and the
external collaborators (driver, caller-supplied callbacks) are given by
an environment of response functions.  C helpers that the Python class
calls through prototypes (the status enums, job_queue_node_submit_simple,
job_queue_node_update_status_simple, job_queue_node_kill_simple) are not
part of the Python sources; they are modelled from the design document,
with a note on each such definition.
-/

/-- Modelled from the spec: the queue-status enumeration
(JobStatusType, declared in C, not under the Python sources).  Values and
meaning per the design document section 3. -/
inductive JobStatusType where
  | JOB_QUEUE_WAITING
  | JOB_QUEUE_SUBMITTED
  | JOB_QUEUE_PENDING
  | JOB_QUEUE_RUNNING
  | JOB_QUEUE_DONE
  | JOB_QUEUE_EXIT
  | JOB_QUEUE_SUCCESS
  | JOB_QUEUE_FAILED
  | JOB_QUEUE_IS_KILLED
  | JOB_QUEUE_UNKNOWN
  deriving DecidableEq, Repr

/-- Modelled from the spec: the worker (monitor-thread) status
enumeration (ThreadStatus, declared outside the provided sources). -/
inductive ThreadStatus where
  | READY
  | RUNNING
  | STOPPING
  | DONE
  | FAILED
  deriving DecidableEq, Repr

/-- Modelled from the spec: submission outcomes of Driver.submit are OK
(backend job id parsed) or FAIL (any rejection; never raised). -/
inductive JobSubmitStatusType where
  | SUBMIT_OK
  | SUBMIT_FAIL
  deriving DecidableEq, Repr

/-- Behaviour of the caller-supplied success callback
(done_callback_function): it returns a boolean, raises a ValueError, or
raises some other exception. -/
inductive CallbackBehavior where
  | returns (b : Bool)
  | raisesValueError
  | raisesOther
  deriving DecidableEq, Repr

/-- Python exceptions relevant to the node. -/
inductive PyError where
  | valueError
  | otherError
  | assertionError
  deriving DecidableEq, Repr

open JobStatusType ThreadStatus JobSubmitStatusType

/-- The mutable state of one JobQueueNode, with the bookkeeping the
embedding needs: now is the wall clock (advanced by time.sleep(1)),
poll_count indexes driver status queries, kill_calls counts Driver.kill
invocations, and done_calls, exit_calls, timeout_calls record the
arguments passed to each invocation of the success, failure and timeout
callbacks.  monitor_alive records whether a monitor thread is live. -/
structure NodeState where
  status : JobStatusType
  thread_status : ThreadStatus
  start_time : Option Nat
  end_time : Option Nat
  timed_out : Bool
  tried_killing : Nat
  submit_attempt : Nat
  now : Nat
  poll_count : Nat
  kill_calls : Nat
  done_calls : List Nat
  exit_calls : List Nat
  timeout_calls : List Nat
  monitor_alive : Bool
  deriving DecidableEq, Repr

/-- The immutable per-node configuration from the constructor:
max_runtime (None or a number of seconds), whether a timeout callback
was supplied, the opaque caller-supplied callback arguments (represented
by a token), and the behaviour of the success callback. -/
structure NodeConfig where
  max_runtime : Option Nat
  has_callback_timeout : Bool
  callback_arguments : Nat
  done_callback : CallbackBehavior
  deriving DecidableEq, Repr

/-- The external world: the outcome Driver.submit reports for each
submission attempt, and the normalized status each driver poll reports. -/
structure Env where
  submit_result : Nat → JobSubmitStatusType
  poll : Nat → JobStatusType

/-- Result of running a piece of Python code: normal return, or an
exception propagating with the object state at raise time (the object is
mutated in place, so its state survives the exception). -/
inductive PyResult where
  | ok (s : NodeState)
  | raised (e : PyError) (s : NodeState)
  deriving DecidableEq, Repr

/-- The node state carried by a result, raised or not. -/
def PyResult.state : PyResult → NodeState
  | .ok s => s
  | .raised _ s => s

/-- The node state produced by the constructor: worker status READY,
no timestamps, counters at zero, queue status WAITING (not yet
submitted). -/
def initial_node : NodeState where
  status := JOB_QUEUE_WAITING
  thread_status := READY
  start_time := none
  end_time := none
  timed_out := false
  tried_killing := 0
  submit_attempt := 0
  now := 0
  poll_count := 0
  kill_calls := 0
  done_calls := []
  exit_calls := []
  timeout_calls := []
  monitor_alive := false

/-- Direct transcription of the C status setter used through
_set_status. -/
def set_status (st : JobStatusType) (s : NodeState) : NodeState :=
  { s with status := st }

/-- JobQueueNode._set_thread_status. -/
def set_thread_status (ts : ThreadStatus) (s : NodeState) : NodeState :=
  { s with thread_status := ts }

/-- time.sleep(1): the wall clock advances by one second. -/
def sleep1 (s : NodeState) : NodeState :=
  { s with now := s.now + 1 }

/-- JobQueueNode.is_running on a given status: true exactly for
PENDING, SUBMITTED, RUNNING and UNKNOWN. -/
def is_running (st : JobStatusType) : Bool :=
  match st with
  | JOB_QUEUE_PENDING => true
  | JOB_QUEUE_SUBMITTED => true
  | JOB_QUEUE_RUNNING => true
  | JOB_QUEUE_UNKNOWN => true
  | _ => false

/-- JobQueueNode.runtime: 0 when no start time is recorded; the clock
minus the start time while no end time is recorded; frozen at end time
minus start time once an end time is recorded. -/
def runtime (s : NodeState) : Nat :=
  match s.start_time with
  | none => 0
  | some t =>
    match s.end_time with
    | none => s.now - t
    | some e => e - t

/-- Truthiness of the Python expression of self._max_runtime: falsy when
None and when 0. -/
def max_runtime_truthy (cfg : NodeConfig) : Bool :=
  match cfg.max_runtime with
  | none => false
  | some m => m ≠ 0

/-- The runtime disjunct of the kill policy as written in
_should_be_killed: self._max_runtime is not None and
self.runtime >= self._max_runtime. -/
def max_runtime_reached (cfg : NodeConfig) (s : NodeState) : Bool :=
  match cfg.max_runtime with
  | none => false
  | some m => runtime s ≥ m

/-- JobQueueNode._should_be_killed. -/
def should_be_killed (cfg : NodeConfig) (s : NodeState) : Bool :=
  s.thread_status = STOPPING || max_runtime_reached cfg s

/-- Modelled from the spec: the C helper job_queue_node_kill_simple
(called through _run_kill) is not under the provided sources; per the
design document, killing calls Driver.kill and does not itself change
the queue status (actual termination is discovered on the next poll). -/
def job_queue_node_kill_simple (s : NodeState) : NodeState :=
  { s with kill_calls := s.kill_calls + 1 }

/-- JobQueueNode._kill: run the driver kill and increment the per-node
kill-attempt counter. -/
def kill (s : NodeState) : NodeState :=
  let s := job_queue_node_kill_simple s
  { s with tried_killing := s.tried_killing + 1 }

/-- Modelled from the spec: the C helper job_queue_node_submit_simple is
not under the provided sources; per the design document the submission
attempt counter increments by exactly one per submit call regardless of
outcome, a FAIL outcome is a normal result value (never raised), and an
accepted job is in the submitted state. -/
def job_queue_node_submit_simple (env : Env) (s : NodeState) :
    JobSubmitStatusType × NodeState :=
  let outcome := env.submit_result s.submit_attempt
  let s := { s with submit_attempt := s.submit_attempt + 1 }
  if outcome = SUBMIT_OK then (outcome, { s with status := JOB_QUEUE_SUBMITTED })
  else (outcome, s)

/-- JobQueueNode.submit. -/
def submit (env : Env) (s : NodeState) : JobSubmitStatusType × NodeState :=
  job_queue_node_submit_simple env s

/-- Modelled from the spec: the C helper
job_queue_node_update_status_simple is not under the provided sources;
per the design document the backend is polled while the job is in a
submitted, non-terminal state (PENDING, SUBMITTED, RUNNING, UNKNOWN) and
the queue status is set to the normalized status the poll reports; for a
job not in such a state the status is left unchanged. -/
def job_queue_node_update_status_simple (env : Env) (s : NodeState) : NodeState :=
  if is_running s.status then
    { s with status := env.poll s.poll_count, poll_count := s.poll_count + 1 }
  else s

/-- JobQueueNode.update_status: skip the driver query while the job is
still WAITING. -/
def update_status (env : Env) (s : NodeState) : NodeState :=
  if s.status ≠ JOB_QUEUE_WAITING then job_queue_node_update_status_simple env s
  else s

/-- JobQueueNode.run_done_callback: call the success callback with the
caller-supplied arguments; a true return sets queue status SUCCESS, a
false return sets EXIT; a ValueError from the callback is swallowed, the
outcome treated as failure and the queue status set FAILED; any other
exception propagates. -/
def run_done_callback (cfg : NodeConfig) (s : NodeState) : PyResult :=
  let s := { s with done_calls := s.done_calls ++ [cfg.callback_arguments] }
  match cfg.done_callback with
  | .returns true => .ok (set_status JOB_QUEUE_SUCCESS s)
  | .returns false => .ok (set_status JOB_QUEUE_EXIT s)
  | .raisesValueError => .ok (set_status JOB_QUEUE_FAILED s)
  | .raisesOther => .raised .otherError s

/-- JobQueueNode.run_exit_callback: call the failure callback with the
caller-supplied arguments. -/
def run_exit_callback (cfg : NodeConfig) (s : NodeState) : NodeState :=
  { s with exit_calls := s.exit_calls ++ [cfg.callback_arguments] }

/-- The kill-policy block in the monitor loop body (lines 185 to 201):
kill, then, when self._max_runtime is truthy and the runtime has reached
it, invoke the timeout callback when one is configured and set the
timed-out flag. -/
def kill_policy (cfg : NodeConfig) (s : NodeState) : NodeState :=
  let s := kill s
  if max_runtime_truthy cfg && decide (runtime s ≥ cfg.max_runtime.getD 0) then
    let s :=
      if cfg.has_callback_timeout then
        { s with timeout_calls := s.timeout_calls ++ [cfg.callback_arguments] }
      else s
    { s with timed_out := true }
  else s

/-- The first half of one monitor-loop iteration: record the start time
on the first observed RUNNING status, sleep one second, then poll the
driver. -/
def monitor_step_pre (env : Env) (s : NodeState) : NodeState :=
  let s :=
    if s.start_time = none ∧ s.status = JOB_QUEUE_RUNNING then
      { s with start_time := some s.now }
    else s
  let s := sleep1 s
  update_status env s

/-- One full iteration of the monitor loop body (lines 177 to 203). -/
def monitor_step (cfg : NodeConfig) (env : Env) (s : NodeState) : NodeState :=
  let t := monitor_step_pre env s
  if should_be_killed cfg t then kill_policy cfg t else t

/-- The while loop of _job_monitor, with explicit fuel: none means the
job was still in a running-like status after fuel iterations. -/
def monitor_loop (cfg : NodeConfig) (env : Env) :
    Nat → NodeState → Option NodeState
  | 0, s => if is_running s.status then none else some s
  | fuel + 1, s =>
    if is_running s.status then monitor_loop cfg env fuel (monitor_step cfg env s)
    else some s

/-- The terminal-handling block of _job_monitor (lines 205 to 233):
record the end time; on DONE run the success callback; then branch on
the refreshed status: SUCCESS and IS_KILLED need no action, EXIT either
resets the worker to READY for a retry (below max_submit) or becomes
FAILED with the failure callback, FAILED runs the failure callback, any
other status is an invariant violation (worker status FAILED, assertion
raised).  Except for the retry return, the worker status ends DONE. -/
def terminal_handling (cfg : NodeConfig) (max_submit : Nat) (s : NodeState) :
    PyResult :=
  let s := { s with end_time := some s.now }
  let r := if s.status = JOB_QUEUE_DONE then run_done_callback cfg s else .ok s
  match r with
  | .raised e s => .raised e s
  | .ok s =>
    if s.status = JOB_QUEUE_SUCCESS then .ok (set_thread_status DONE s)
    else if s.status = JOB_QUEUE_EXIT then
      if s.submit_attempt < max_submit then .ok (set_thread_status READY s)
      else
        .ok (set_thread_status DONE (run_exit_callback cfg (set_status JOB_QUEUE_FAILED s)))
    else if s.status = JOB_QUEUE_IS_KILLED then .ok (set_thread_status DONE s)
    else if s.status = JOB_QUEUE_FAILED then
      .ok (set_thread_status DONE (run_exit_callback cfg s))
    else .raised .assertionError (set_thread_status FAILED s)

/-- The submission phase of _job_monitor (lines 170 to 172): submit, and
on any outcome other than OK set queue status DONE immediately. -/
def submit_phase (env : Env) (s : NodeState) : NodeState :=
  let r := submit env s
  if r.1 ≠ SUBMIT_OK then set_status JOB_QUEUE_DONE r.2 else r.2

/-- JobQueueNode._job_monitor: submit, poll once, loop while the status
is running-like, then do terminal handling.  none means the loop was
still going after fuel iterations. -/
def job_monitor (cfg : NodeConfig) (env : Env) (max_submit fuel : Nat)
    (s : NodeState) : Option PyResult :=
  let s := submit_phase env s
  let s := update_status env s
  match monitor_loop cfg env fuel s with
  | none => none
  | some s => some (terminal_handling cfg max_submit s)

/-- JobQueueNode.wait_for: join the monitor thread if one is alive; in
this sequential model the effects of a completed monitor are already in
the state, so joining only clears the liveness flag. -/
def wait_for (s : NodeState) : NodeState :=
  { s with monitor_alive := false }

/-- Whether run started a monitor thread or returned without one. -/
inductive RunAction where
  | returnedWithoutStart
  | startedMonitor
  deriving DecidableEq, Repr

/-- JobQueueNode.run: wait for any previous monitor thread, then either
short-circuit to worker status DONE when a stop was already requested,
or set worker status RUNNING, reset the start time and start the monitor
thread. -/
def run (s : NodeState) : NodeState × RunAction :=
  let s := wait_for s
  if s.thread_status = STOPPING then
    (set_thread_status DONE s, .returnedWithoutStart)
  else
    ({ s with thread_status := RUNNING, start_time := none, monitor_alive := true },
      .startedMonitor)

/-- JobQueueNode.stop: RUNNING becomes STOPPING; READY short-circuits to
worker DONE and queue FAILED; then the postcondition assertion that the
worker status is DONE, STOPPING or FAILED. -/
def stop (s : NodeState) : PyResult :=
  let s :=
    if s.thread_status = RUNNING then set_thread_status STOPPING s
    else if s.thread_status = READY then
      set_status JOB_QUEUE_FAILED (set_thread_status DONE s)
    else s
  if s.thread_status = DONE ∨ s.thread_status = STOPPING ∨ s.thread_status = FAILED
  then .ok s else .raised .assertionError s

/-! ## Helper facts -/

theorem runtime_of_start_none {s : NodeState} (h : s.start_time = none) :
    runtime s = 0 := by
  simp [runtime, h]

/-- C6: every invocation of the kill operation calls Driver.kill exactly
once and increments the kill-attempt counter by exactly one, changing no
other node state; in particular the queue status is unchanged. -/
theorem claim_C6 (s : NodeState) :
    kill s = { s with kill_calls := s.kill_calls + 1,
                      tried_killing := s.tried_killing + 1 }
    ∧ (kill s).status = s.status :=
  ⟨rfl, rfl⟩

/-- C8: the runtime property is 0 with no start time recorded, the
elapsed clock since the start time while no end time is recorded, and
frozen at end time minus start time once an end time is recorded. -/
theorem claim_C8 (s : NodeState) :
    (s.start_time = none → runtime s = 0)
    ∧ (∀ t, s.start_time = some t → s.end_time = none → runtime s = s.now - t)
    ∧ (∀ t e, s.start_time = some t → s.end_time = some e → runtime s = e - t) := by
  refine ⟨fun h => by simp [runtime, h], fun t h1 h2 => ?_, fun t e h1 h2 => ?_⟩
  · simp [runtime, h1, h2]
  · simp [runtime, h1, h2]

/-- A node that has started but not finished, for concrete evaluation. -/
def node_started : NodeState := { initial_node with start_time := some 2, now := 7 }

/-- A node with both timestamps recorded, for concrete evaluation. -/
def node_finished : NodeState :=
  { initial_node with start_time := some 2, end_time := some 5, now := 9 }

/-- Witness for C8 at concrete nodes. -/
theorem claim_C8_witness :
    runtime initial_node = 0 ∧ runtime node_started = 5 ∧ runtime node_finished = 3 :=
  ⟨(claim_C8 initial_node).1 rfl,
   (claim_C8 node_started).2.1 2 rfl rfl,
   (claim_C8 node_finished).2.2 2 5 rfl rfl⟩

/-- C4: stop sends a RUNNING worker to STOPPING, sends a READY worker
directly to DONE with queue status FAILED and no other change (so no
driver call), and in every case returns normally with the worker status
in the asserted set DONE, STOPPING, FAILED. -/
theorem claim_C4 (s : NodeState) :
    (∃ s', stop s = .ok s'
      ∧ (s'.thread_status = DONE ∨ s'.thread_status = STOPPING
          ∨ s'.thread_status = FAILED))
    ∧ (s.thread_status = RUNNING →
        stop s = .ok { s with thread_status := STOPPING })
    ∧ (s.thread_status = READY →
        stop s = .ok { s with thread_status := DONE,
                              status := JOB_QUEUE_FAILED }) := by
  cases h : s.thread_status
  case READY =>
    exact ⟨⟨{ s with thread_status := DONE, status := JOB_QUEUE_FAILED },
      by simp [stop, set_status, set_thread_status, h], Or.inl rfl⟩,
      by simp [h], fun _ => by simp [stop, set_status, set_thread_status, h]⟩
  case RUNNING =>
    exact ⟨⟨{ s with thread_status := STOPPING },
      by simp [stop, set_status, set_thread_status, h], Or.inr (Or.inl rfl)⟩,
      fun _ => by simp [stop, set_status, set_thread_status, h],
      by simp [h]⟩
  case STOPPING =>
    exact ⟨⟨s, by simp [stop, h], Or.inr (Or.inl h)⟩, by simp [h], by simp [h]⟩
  case DONE =>
    exact ⟨⟨s, by simp [stop, h], Or.inl h⟩, by simp [h], by simp [h]⟩
  case FAILED =>
    exact ⟨⟨s, by simp [stop, h], Or.inr (Or.inr h)⟩, by simp [h], by simp [h]⟩

/-- Witness for C4: a freshly constructed node has worker status READY;
stop sends it to worker DONE and queue FAILED. -/
theorem claim_C4_witness :
    initial_node.thread_status = READY
    ∧ stop initial_node = .ok { initial_node with thread_status := DONE,
                                                  status := JOB_QUEUE_FAILED } :=
  ⟨rfl, (claim_C4 initial_node).2.2 rfl⟩

/-- C7: run joins any previous monitor thread before anything else (it
acts on the joined state, whose monitor-liveness flag is cleared), and
when a stop was requested before starting it moves the worker status
directly to DONE and returns without starting a monitor and without
submitting (the state equation shows the submission counter untouched). -/
theorem claim_C7 (s : NodeState) :
    run s = run (wait_for s)
    ∧ (wait_for s).monitor_alive = false
    ∧ (s.thread_status = STOPPING →
        run s = ({ s with monitor_alive := false, thread_status := DONE },
          .returnedWithoutStart)) := by
  refine ⟨rfl, rfl, fun h => ?_⟩
  simp [run, wait_for, set_thread_status, h]

/-- A node on which a stop was requested before run. -/
def node_stopping : NodeState := { initial_node with thread_status := STOPPING }

/-- Witness for C7 on a node whose worker status is STOPPING. -/
theorem claim_C7_witness :
    node_stopping.thread_status = STOPPING
    ∧ run node_stopping = ({ node_stopping with monitor_alive := false,
                                                thread_status := DONE },
        .returnedWithoutStart) :=
  ⟨rfl, (claim_C7 node_stopping).2.2 rfl⟩

/-- In terminal handling on a DONE status the success callback is always
invoked once with the caller-supplied arguments, whatever its behaviour. -/
theorem terminal_done_calls (cfg : NodeConfig) (ms : Nat) (s : NodeState)
    (h : s.status = JOB_QUEUE_DONE) :
    (terminal_handling cfg ms s).state.done_calls
      = s.done_calls ++ [cfg.callback_arguments] := by
  cases hcb : cfg.done_callback with
  | returns b =>
    cases b
    · by_cases hms : s.submit_attempt < ms <;>
        simp [terminal_handling, run_done_callback, set_status, set_thread_status,
          run_exit_callback, PyResult.state, h, hcb, hms]
    · simp [terminal_handling, run_done_callback, set_status, set_thread_status,
        run_exit_callback, PyResult.state, h, hcb]
  | raisesValueError =>
    simp [terminal_handling, run_done_callback, set_status, set_thread_status,
      run_exit_callback, PyResult.state, h, hcb]
  | raisesOther =>
    simp [terminal_handling, run_done_callback, set_status, set_thread_status,
      PyResult.state, h, hcb]

/-- C1: the success callback runs with the caller-supplied arguments
when the loop exits with DONE; a true return sets queue status SUCCESS,
a false return sets EXIT, and a ValueError sets FAILED with the error
swallowed (a normal return, not a raise), after which the failure
callback still runs. -/
theorem claim_C1 (cfg : NodeConfig) (ms : Nat) (s : NodeState) :
    (cfg.done_callback = .returns true →
      run_done_callback cfg s =
        .ok { s with done_calls := s.done_calls ++ [cfg.callback_arguments],
                     status := JOB_QUEUE_SUCCESS })
    ∧ (cfg.done_callback = .returns false →
      run_done_callback cfg s =
        .ok { s with done_calls := s.done_calls ++ [cfg.callback_arguments],
                     status := JOB_QUEUE_EXIT })
    ∧ (cfg.done_callback = .raisesValueError →
      run_done_callback cfg s =
        .ok { s with done_calls := s.done_calls ++ [cfg.callback_arguments],
                     status := JOB_QUEUE_FAILED })
    ∧ (s.status = JOB_QUEUE_DONE →
      (terminal_handling cfg ms s).state.done_calls
          = s.done_calls ++ [cfg.callback_arguments]
      ∧ (cfg.done_callback = .raisesValueError →
        ∃ s', terminal_handling cfg ms s = .ok s'
          ∧ s'.status = JOB_QUEUE_FAILED
          ∧ s'.exit_calls = s.exit_calls ++ [cfg.callback_arguments])) := by
  refine ⟨fun hcb => ?_, fun hcb => ?_, fun hcb => ?_,
    fun h => ⟨terminal_done_calls cfg ms s h, fun hcb => ?_⟩⟩
  · simp [run_done_callback, set_status, hcb]
  · simp [run_done_callback, set_status, hcb]
  · simp [run_done_callback, set_status, hcb]
  · refine ⟨{ s with end_time := some s.now,
                     done_calls := s.done_calls ++ [cfg.callback_arguments],
                     status := JOB_QUEUE_FAILED,
                     exit_calls := s.exit_calls ++ [cfg.callback_arguments],
                     thread_status := DONE }, ?_, rfl, rfl⟩
    simp [terminal_handling, run_done_callback, set_status, set_thread_status,
      run_exit_callback, h, hcb]

/-- A node observed DONE at loop exit, for concrete evaluation. -/
def node_done : NodeState := { initial_node with status := JOB_QUEUE_DONE }

/-- A configuration whose success callback raises ValueError. -/
def cfg_value_error : NodeConfig :=
  { max_runtime := none, has_callback_timeout := false,
    callback_arguments := 7, done_callback := .raisesValueError }

/-- Witness for C1: on a DONE node whose success callback raises
ValueError, the callback runs, the error is swallowed, the status is
FAILED and the failure callback runs. -/
theorem claim_C1_witness :
    node_done.status = JOB_QUEUE_DONE
    ∧ (terminal_handling cfg_value_error 2 node_done).state.done_calls
        = node_done.done_calls ++ [cfg_value_error.callback_arguments]
    ∧ (∃ s', terminal_handling cfg_value_error 2 node_done = .ok s'
        ∧ s'.status = JOB_QUEUE_FAILED
        ∧ s'.exit_calls = node_done.exit_calls
            ++ [cfg_value_error.callback_arguments]) :=
  ⟨rfl, ((claim_C1 cfg_value_error 2 node_done).2.2.2 rfl).1,
    ((claim_C1 cfg_value_error 2 node_done).2.2.2 rfl).2 rfl⟩

/-- C2: terminal handling on an EXIT status: below max_submit the worker
is reset to READY and the monitor returns with no failure callback and
no worker DONE; otherwise the queue status becomes FAILED and the
failure callback runs exactly once. -/
theorem claim_C2 (cfg : NodeConfig) (ms : Nat) (s : NodeState)
    (h : s.status = JOB_QUEUE_EXIT) :
    (s.submit_attempt < ms →
      terminal_handling cfg ms s =
        .ok { s with end_time := some s.now, thread_status := READY })
    ∧ (¬ s.submit_attempt < ms →
      terminal_handling cfg ms s =
        .ok { s with end_time := some s.now, status := JOB_QUEUE_FAILED,
                     exit_calls := s.exit_calls ++ [cfg.callback_arguments],
                     thread_status := DONE }) := by
  constructor <;> intro hms <;>
    simp [terminal_handling, run_done_callback, set_status, set_thread_status,
      run_exit_callback, h, hms]

/-- A node observed EXIT at loop exit after its first submission. -/
def node_exit_first : NodeState :=
  { initial_node with status := JOB_QUEUE_EXIT, submit_attempt := 1 }

/-- A node observed EXIT at loop exit after its second submission. -/
def node_exit_second : NodeState :=
  { initial_node with status := JOB_QUEUE_EXIT, submit_attempt := 2 }

/-- Witness for C2 with max_submit 2: the first EXIT resets the worker
to READY; the second reaches FAILED with the failure callback invoked
exactly once. -/
theorem claim_C2_witness :
    node_exit_first.status = JOB_QUEUE_EXIT
    ∧ node_exit_first.submit_attempt < 2
    ∧ terminal_handling cfg_value_error 2 node_exit_first =
        .ok { node_exit_first with end_time := some node_exit_first.now,
                                   thread_status := READY }
    ∧ terminal_handling cfg_value_error 2 node_exit_second =
        .ok { node_exit_second with end_time := some node_exit_second.now,
                                    status := JOB_QUEUE_FAILED,
                                    exit_calls := node_exit_second.exit_calls
                                      ++ [cfg_value_error.callback_arguments],
                                    thread_status := DONE } :=
  ⟨rfl, by decide,
    (claim_C2 cfg_value_error 2 node_exit_first rfl).1 (by decide),
    (claim_C2 cfg_value_error 2 node_exit_second rfl).2 (by decide)⟩

/-- The while loop returns immediately on any non-running status. -/
theorem monitor_loop_exit (cfg : NodeConfig) (env : Env) (fuel : Nat)
    {s : NodeState} (h : is_running s.status = false) :
    monitor_loop cfg env fuel s = some s := by
  cases fuel <;> simp [monitor_loop, h]

/-- C3: when Driver.submit reports anything other than OK, the queue
status is set to DONE immediately, and the whole monitor then funnels
the failure through the normal terminal handling: the loop exits at once
and the success callback is run, with no separate error path. -/
theorem claim_C3 (cfg : NodeConfig) (env : Env) (ms fuel : Nat) (s : NodeState)
    (h : env.submit_result s.submit_attempt ≠ SUBMIT_OK) :
    (submit_phase env s).status = JOB_QUEUE_DONE
    ∧ ∃ r, job_monitor cfg env ms fuel s = some r
        ∧ r.state.done_calls = s.done_calls ++ [cfg.callback_arguments] := by
  have hsub : submit_phase env s =
      { s with submit_attempt := s.submit_attempt + 1,
               status := JOB_QUEUE_DONE } := by
    simp [submit_phase, submit, job_queue_node_submit_simple, set_status, h]
  refine ⟨by rw [hsub], ⟨terminal_handling cfg ms (submit_phase env s), ?_, ?_⟩⟩
  · rw [job_monitor]
    have hupd : update_status env (submit_phase env s) = submit_phase env s := by
      rw [hsub]
      simp [update_status, job_queue_node_update_status_simple, is_running]
    rw [hupd, monitor_loop_exit cfg env fuel (by rw [hsub]; rfl)]
  · rw [terminal_done_calls cfg ms _ (by rw [hsub]), hsub]

/-- An environment whose backend rejects every submission and reports
PENDING on every poll. -/
def env_submit_fail : Env :=
  { submit_result := fun _ => SUBMIT_FAIL, poll := fun _ => JOB_QUEUE_PENDING }

/-- Witness for C3 on a fresh node against a backend that rejects the
submission. -/
theorem claim_C3_witness :
    env_submit_fail.submit_result initial_node.submit_attempt ≠ SUBMIT_OK
    ∧ ((submit_phase env_submit_fail initial_node).status = JOB_QUEUE_DONE
      ∧ ∃ r, job_monitor cfg_value_error env_submit_fail 2 5 initial_node = some r
          ∧ r.state.done_calls = initial_node.done_calls
              ++ [cfg_value_error.callback_arguments]) :=
  ⟨by decide, claim_C3 cfg_value_error env_submit_fail 2 5 initial_node (by decide)⟩

/-- The pre-kill half of a loop iteration only touches the status, the
poll counter, the clock and possibly the start time. -/
theorem monitor_step_pre_frame (env : Env) (s : NodeState) :
    (monitor_step_pre env s).kill_calls = s.kill_calls
    ∧ (monitor_step_pre env s).timeout_calls = s.timeout_calls
    ∧ (monitor_step_pre env s).timed_out = s.timed_out
    ∧ (monitor_step_pre env s).thread_status = s.thread_status := by
  unfold monitor_step_pre sleep1 update_status job_queue_node_update_status_simple
  refine ⟨?_, ?_, ?_, ?_⟩ <;> (dsimp only; split_ifs <;> rfl)

/-- kill_policy always increments the Driver.kill count by exactly one. -/
theorem kill_policy_kill_calls (cfg : NodeConfig) (t : NodeState) :
    (kill_policy cfg t).kill_calls = t.kill_calls + 1 := by
  unfold kill_policy kill job_queue_node_kill_simple
  dsimp only
  split_ifs <;> rfl

/-- C5 (amended): on each loop iteration a kill is attempted exactly
when _should_be_killed holds of the polled state (worker STOPPING, or a
max runtime configured and reached); and whenever a nonzero max runtime
is configured and reached, the timed-out flag is set and a configured
timeout callback is invoked with the caller-supplied arguments.  (With a
configured max runtime of zero the kill fires but the flag and callback
do not: see the counterexample.) -/
theorem claim_C5 (cfg : NodeConfig) (env : Env) (s : NodeState) :
    (monitor_step_pre env s).kill_calls = s.kill_calls
    ∧ (monitor_step cfg env s).kill_calls =
        s.kill_calls
          + (if should_be_killed cfg (monitor_step_pre env s) then 1 else 0)
    ∧ (∀ m, cfg.max_runtime = some m → 0 < m →
        runtime (monitor_step_pre env s) ≥ m →
        (monitor_step cfg env s).timed_out = true
        ∧ (cfg.has_callback_timeout = true →
            (monitor_step cfg env s).timeout_calls
              = s.timeout_calls ++ [cfg.callback_arguments])) := by
  obtain ⟨hkc, htc, -, -⟩ := monitor_step_pre_frame env s
  refine ⟨hkc, ?_, ?_⟩
  · by_cases hk : should_be_killed cfg (monitor_step_pre env s)
    · rw [if_pos hk]
      unfold monitor_step
      rw [if_pos hk, kill_policy_kill_calls, hkc]
    · rw [if_neg hk]
      unfold monitor_step
      rw [if_neg hk, hkc]
      simp
  · intro m hm hm0 hr
    have hreach : max_runtime_reached cfg (monitor_step_pre env s) = true := by
      simp [max_runtime_reached, hm, hr]
    have hk : should_be_killed cfg (monitor_step_pre env s) = true := by
      simp [should_be_killed, hreach]
    have hrk : runtime (kill (monitor_step_pre env s))
        = runtime (monitor_step_pre env s) := rfl
    have hcond : (max_runtime_truthy cfg
        && decide (runtime (kill (monitor_step_pre env s))
            ≥ cfg.max_runtime.getD 0)) = true := by
      simp [max_runtime_truthy, hm, hrk, hr, Nat.pos_iff_ne_zero.mp hm0]
    unfold monitor_step
    rw [if_pos hk]
    unfold kill_policy
    rw [if_pos hcond]
    by_cases hcb : cfg.has_callback_timeout
    · refine ⟨by simp [hcb], fun _ => ?_⟩
      simp only [hcb, if_pos]
      show (kill (monitor_step_pre env s)).timeout_calls
          ++ [cfg.callback_arguments] = s.timeout_calls ++ [cfg.callback_arguments]
      rw [show (kill (monitor_step_pre env s)).timeout_calls
          = (monitor_step_pre env s).timeout_calls from rfl, htc]
    · exact ⟨by simp [hcb], fun hc => absurd hc hcb⟩

/-- A configuration with a one-second maximum runtime and a timeout
callback. -/
def cfg_max_runtime_one : NodeConfig :=
  { max_runtime := some 1, has_callback_timeout := true,
    callback_arguments := 9, done_callback := .returns true }

/-- An environment that always reports RUNNING on poll. -/
def env_always_running : Env :=
  { submit_result := fun _ => SUBMIT_OK, poll := fun _ => JOB_QUEUE_RUNNING }

/-- A node mid-monitoring: observed RUNNING, start time recorded. -/
def node_running_started : NodeState :=
  { initial_node with status := JOB_QUEUE_RUNNING, thread_status := RUNNING,
                      start_time := some 0, now := 3 }

/-- Witness for C5: with max runtime 1 and four seconds of runtime, one
kill is attempted, the timed-out flag is set and the timeout callback is
invoked with the caller-supplied arguments. -/
theorem claim_C5_witness :
    cfg_max_runtime_one.max_runtime = some 1
    ∧ runtime (monitor_step_pre env_always_running node_running_started) ≥ 1
    ∧ ((monitor_step cfg_max_runtime_one env_always_running
          node_running_started).timed_out = true
      ∧ (cfg_max_runtime_one.has_callback_timeout = true →
          (monitor_step cfg_max_runtime_one env_always_running
              node_running_started).timeout_calls
            = node_running_started.timeout_calls
              ++ [cfg_max_runtime_one.callback_arguments])) :=
  ⟨rfl, by decide,
    (claim_C5 cfg_max_runtime_one env_always_running node_running_started).2.2
      1 rfl (by decide) (by decide)⟩

/-- A configuration with a configured maximum runtime of zero seconds. -/
def cfg_zero_runtime : NodeConfig :=
  { max_runtime := some 0, has_callback_timeout := true,
    callback_arguments := 5, done_callback := .returns true }

/-- A node whose monitor loop is in its first iteration while the
backend reports RUNNING. -/
def node_running_fresh : NodeState :=
  { initial_node with status := JOB_QUEUE_RUNNING, thread_status := RUNNING }

/-- Counterexample for C5 as stated: with max_runtime configured as 0
the runtime condition of the kill policy holds (a kill is attempted),
yet the timed-out flag is not set and the configured timeout callback is
not invoked. -/
theorem claim_C5_counterexample :
    cfg_zero_runtime.max_runtime = some 0
    ∧ cfg_zero_runtime.has_callback_timeout = true
    ∧ runtime (monitor_step_pre env_always_running node_running_fresh) ≥ 0
    ∧ max_runtime_reached cfg_zero_runtime
        (monitor_step_pre env_always_running node_running_fresh) = true
    ∧ (monitor_step cfg_zero_runtime env_always_running
        node_running_fresh).kill_calls = node_running_fresh.kill_calls + 1
    ∧ (monitor_step cfg_zero_runtime env_always_running
        node_running_fresh).timed_out = false
    ∧ (monitor_step cfg_zero_runtime env_always_running
        node_running_fresh).timeout_calls = [] := by
  decide

/-- kill_policy at runtime 0 only performs the kill: the truthy max
runtime required by the timed-out branch cannot be reached at runtime 0. -/
theorem kill_policy_runtime_zero (cfg : NodeConfig) (t : NodeState)
    (h0 : runtime t = 0) :
    kill_policy cfg t =
      { t with kill_calls := t.kill_calls + 1,
               tried_killing := t.tried_killing + 1 } := by
  obtain ⟨st0, ts, stt, et, tdo, tk, sa, n, pc0, kc, dc, ec, tc, ma⟩ := t
  unfold kill_policy kill job_queue_node_kill_simple
  dsimp only
  split_ifs with h h2
  · exfalso
    simp only [Bool.and_eq_true, decide_eq_true_eq] at h
    obtain ⟨h1, h2'⟩ := h
    rw [show runtime (⟨st0, ts, stt, et, tdo, tk + 1, sa, n, pc0, kc + 1,
        dc, ec, tc, ma⟩ : NodeState) = 0 from h0] at h2'
    cases hmr : cfg.max_runtime with
    | none => simp [max_runtime_truthy, hmr] at h1
    | some m =>
      simp [max_runtime_truthy, hmr] at h1 h2'
      omega
  · exfalso
    simp only [Bool.and_eq_true, decide_eq_true_eq] at h
    obtain ⟨h1, h2'⟩ := h
    rw [show runtime (⟨st0, ts, stt, et, tdo, tk + 1, sa, n, pc0, kc + 1,
        dc, ec, tc, ma⟩ : NodeState) = 0 from h0] at h2'
    cases hmr : cfg.max_runtime with
    | none => simp [max_runtime_truthy, hmr] at h1
    | some m =>
      simp [max_runtime_truthy, hmr] at h1 h2'
      omega
  · rfl

/-- The pre-kill half of an iteration on a state not observed RUNNING:
the status becomes something still not RUNNING (either unchanged or the
polled status), the clock advances, and the start time is untouched. -/
theorem monitor_step_pre_stuck (env : Env) (s : NodeState)
    (hs : s.status ≠ JOB_QUEUE_RUNNING) (hst : s.start_time = none)
    (hpoll : env.poll s.poll_count ≠ JOB_QUEUE_RUNNING) :
    ∃ st pc, monitor_step_pre env s =
        { s with status := st, poll_count := pc, now := s.now + 1 }
      ∧ st ≠ JOB_QUEUE_RUNNING := by
  obtain ⟨st0, ts, stt, et, tdo, tk, sa, n, pc0, kc, dc, ec, tc, ma⟩ := s
  dsimp at hs hst hpoll
  subst hst
  unfold monitor_step_pre sleep1 update_status job_queue_node_update_status_simple
  dsimp only
  rw [if_neg (show ¬ ((none : Option Nat) = none ∧ st0 = JOB_QUEUE_RUNNING) from
    fun h => hs h.2)]
  split_ifs with h1 h2
  · exact ⟨env.poll pc0, pc0 + 1, rfl, hpoll⟩
  · exact ⟨st0, pc0, rfl, hs⟩
  · exact ⟨st0, pc0, rfl, hs⟩

/-- The kill phase of an iteration at runtime 0 under a nonzero (or
absent) configured max runtime: no runtime-based kill fires, the
timed-out flag and timeout-callback record are untouched, and a kill
happens only on a STOPPING worker. -/
theorem step_kill_phase_stuck (cfg : NodeConfig) (t : NodeState)
    (hm : ∀ m, cfg.max_runtime = some m → 0 < m) (hrt : runtime t = 0) :
    (if should_be_killed cfg t then kill_policy cfg t else t).status = t.status
    ∧ (if should_be_killed cfg t then kill_policy cfg t else t).start_time
        = t.start_time
    ∧ (if should_be_killed cfg t then kill_policy cfg t else t).timed_out
        = t.timed_out
    ∧ (if should_be_killed cfg t then kill_policy cfg t else t).timeout_calls
        = t.timeout_calls
    ∧ (if should_be_killed cfg t then kill_policy cfg t else t).thread_status
        = t.thread_status
    ∧ (t.thread_status ≠ STOPPING →
        (if should_be_killed cfg t then kill_policy cfg t else t).kill_calls
          = t.kill_calls) := by
  have hreach : max_runtime_reached cfg t = false := by
    unfold max_runtime_reached
    cases hmr : cfg.max_runtime with
    | none => rfl
    | some m =>
      have hp := hm m hmr
      simp [hrt]
      omega
  have hsbk : should_be_killed cfg t = decide (t.thread_status = STOPPING) := by
    unfold should_be_killed
    rw [hreach, Bool.or_false]
  by_cases hth : t.thread_status = STOPPING
  · have hkb : should_be_killed cfg t = true := by
      rw [hsbk, hth]
      rfl
    rw [if_pos hkb, kill_policy_runtime_zero cfg t hrt]
    exact ⟨rfl, rfl, rfl, rfl, rfl, fun h => absurd hth h⟩
  · have hkb : should_be_killed cfg t = false := by
      rw [hsbk]
      exact decide_eq_false hth
    rw [if_neg (show ¬ (should_be_killed cfg t = true) by simp [hkb])]
    exact ⟨rfl, rfl, rfl, rfl, rfl, fun _ => rfl⟩

/-- One full loop iteration on a state not observed RUNNING, under a
nonzero (or absent) max runtime and polls that never report RUNNING:
the status stays off RUNNING, the start time stays unset, the timed-out
flag and timeout-callback record and worker status are unchanged, and
the Driver.kill count is unchanged unless the worker was STOPPING. -/
theorem monitor_step_stuck (cfg : NodeConfig) (env : Env) (s : NodeState)
    (hm : ∀ m, cfg.max_runtime = some m → 0 < m)
    (hs : s.status ≠ JOB_QUEUE_RUNNING)
    (hpoll : env.poll s.poll_count ≠ JOB_QUEUE_RUNNING)
    (hst : s.start_time = none) :
    (monitor_step cfg env s).status ≠ JOB_QUEUE_RUNNING
    ∧ (monitor_step cfg env s).start_time = none
    ∧ (monitor_step cfg env s).timed_out = s.timed_out
    ∧ (monitor_step cfg env s).timeout_calls = s.timeout_calls
    ∧ (monitor_step cfg env s).thread_status = s.thread_status
    ∧ (s.thread_status ≠ STOPPING →
        (monitor_step cfg env s).kill_calls = s.kill_calls) := by
  obtain ⟨st, pc, hpre, hstat⟩ := monitor_step_pre_stuck env s hs hst hpoll
  have hstep : monitor_step cfg env s =
      if should_be_killed cfg { s with status := st, poll_count := pc, now := s.now + 1 } then
        kill_policy cfg { s with status := st, poll_count := pc, now := s.now + 1 }
      else { s with status := st, poll_count := pc, now := s.now + 1 } := by
    unfold monitor_step
    rw [hpre]
  have hrt : runtime { s with status := st, poll_count := pc, now := s.now + 1 } = 0 :=
    runtime_of_start_none hst
  obtain ⟨k1, k2, k3, k4, k5, k6⟩ := step_kill_phase_stuck cfg
    { s with status := st, poll_count := pc, now := s.now + 1 } hm hrt
  rw [hstep]
  exact ⟨by rw [k1]; exact hstat, by rw [k2]; exact hst, k3, k4, k5, k6⟩

/-- C10 (amended): a job never observed in queue status RUNNING keeps
its start time unset and its runtime at 0 through the whole monitor
loop, so with a nonzero (or absent) configured maximum runtime the
runtime branch of the kill policy never fires: timed_out is never set,
the timeout callback is never invoked, and no kill is attempted unless
a stop was requested.  (With max_runtime configured as 0 the runtime
branch does fire: see the counterexample.) -/
theorem claim_C10 (cfg : NodeConfig) (env : Env) (fuel : Nat)
    (s s' : NodeState)
    (hm : ∀ m, cfg.max_runtime = some m → 0 < m)
    (henv : ∀ k, env.poll k ≠ JOB_QUEUE_RUNNING)
    (hs : s.status ≠ JOB_QUEUE_RUNNING)
    (hst : s.start_time = none) (hto : s.timed_out = false)
    (hres : monitor_loop cfg env fuel s = some s') :
    s'.start_time = none ∧ s'.timed_out = false
    ∧ s'.timeout_calls = s.timeout_calls ∧ runtime s' = 0
    ∧ (s.thread_status ≠ STOPPING → s'.kill_calls = s.kill_calls) := by
  induction fuel generalizing s with
  | zero =>
    unfold monitor_loop at hres
    by_cases hr : is_running s.status
    · rw [if_pos hr] at hres; cases hres
    · rw [if_neg hr] at hres
      cases hres
      exact ⟨hst, hto, rfl, runtime_of_start_none hst, fun _ => rfl⟩
  | succ fuel ih =>
    unfold monitor_loop at hres
    by_cases hr : is_running s.status
    · rw [if_pos hr] at hres
      obtain ⟨q1, q2, q3, q4, q5, q6⟩ :=
        monitor_step_stuck cfg env s hm hs (henv s.poll_count) hst
      obtain ⟨r1, r2, r3, r4, r5⟩ :=
        ih (monitor_step cfg env s) q1 q2 (by rw [q3]; exact hto) hres
      refine ⟨r1, r2, by rw [r3, q4], r4, fun hth => ?_⟩
      rw [r5 (by rw [q5]; exact hth), q6 hth]
    · rw [if_neg hr] at hres
      cases hres
      exact ⟨hst, hto, rfl, runtime_of_start_none hst, fun _ => rfl⟩

/-- A configuration with a five-second maximum runtime and a timeout
callback. -/
def cfg_max_runtime_five : NodeConfig :=
  { max_runtime := some 5, has_callback_timeout := true,
    callback_arguments := 4, done_callback := .returns true }

/-- An environment that reports PENDING twice and then EXIT. -/
def env_pending_then_exit : Env :=
  { submit_result := fun _ => SUBMIT_OK,
    poll := fun k => if k < 2 then JOB_QUEUE_PENDING else JOB_QUEUE_EXIT }

/-- A node whose monitor loop starts while the backend reports PENDING. -/
def node_pending_run : NodeState :=
  { initial_node with status := JOB_QUEUE_PENDING, thread_status := RUNNING }

/-- The state the loop exits with in the witness scenario. -/
def node_loop_exit : NodeState :=
  { initial_node with status := JOB_QUEUE_EXIT, thread_status := RUNNING,
                      now := 3, poll_count := 3 }

/-- Witness for C10: a job stuck in PENDING and then exiting, never
observed RUNNING, ends with start time unset, runtime 0, timed_out
false, no timeout callback and no kill. -/
theorem claim_C10_witness :
    node_pending_run.status ≠ JOB_QUEUE_RUNNING
    ∧ node_pending_run.start_time = none
    ∧ monitor_loop cfg_max_runtime_five env_pending_then_exit 5 node_pending_run
        = some node_loop_exit
    ∧ (node_loop_exit.start_time = none ∧ node_loop_exit.timed_out = false
        ∧ node_loop_exit.timeout_calls = node_pending_run.timeout_calls
        ∧ runtime node_loop_exit = 0
        ∧ (node_pending_run.thread_status ≠ STOPPING →
            node_loop_exit.kill_calls = node_pending_run.kill_calls)) :=
  ⟨by decide, rfl, rfl,
    claim_C10 cfg_max_runtime_five env_pending_then_exit 5 node_pending_run
      node_loop_exit (fun m hm => by simp [cfg_max_runtime_five] at hm; omega)
      (fun k => by by_cases h : k < 2 <;> simp [env_pending_then_exit, h])
      (by decide) rfl rfl rfl⟩

/-- Counterexample for C10 as stated: with max_runtime configured as 0,
a job stuck in PENDING (never observed RUNNING, start time unset, no
stop requested) still triggers the runtime branch of the kill policy on
the very first iteration, and a kill is attempted. -/
theorem claim_C10_counterexample :
    cfg_zero_runtime.max_runtime = some 0
    ∧ node_pending_run.status = JOB_QUEUE_PENDING
    ∧ node_pending_run.start_time = none
    ∧ node_pending_run.thread_status ≠ STOPPING
    ∧ env_submit_fail.poll 0 = JOB_QUEUE_PENDING
    ∧ max_runtime_reached cfg_zero_runtime
        (monitor_step_pre env_submit_fail node_pending_run) = true
    ∧ (monitor_step_pre env_submit_fail node_pending_run).thread_status ≠ STOPPING
    ∧ (monitor_step cfg_zero_runtime env_submit_fail node_pending_run).kill_calls
        = node_pending_run.kill_calls + 1
    ∧ (monitor_step cfg_zero_runtime env_submit_fail node_pending_run).start_time
        = none := by
  decide

/-- A state whose recorded end time is at or before its start time (and
any state with no start time) reads runtime 0. -/
theorem runtime_stale (s : NodeState) (e : Nat) (hend : s.end_time = some e)
    (hstart : s.start_time = none ∨ ∃ t0, s.start_time = some t0 ∧ e ≤ t0) :
    runtime s = 0 := by
  cases hstart with
  | inl h => exact runtime_of_start_none h
  | inr h =>
    obtain ⟨t0, h1, h2⟩ := h
    simp only [runtime, h1, hend]
    omega

/-- The pre-kill half of an iteration on an arbitrary state: the status
and poll counter may change, the clock advances, and the start time is
either untouched or freshly recorded at the current clock. -/
theorem monitor_step_pre_general (env : Env) (s : NodeState) :
    ∃ st pc stt, monitor_step_pre env s =
        { s with status := st, poll_count := pc, start_time := stt, now := s.now + 1 }
      ∧ (stt = s.start_time ∨ stt = some s.now) := by
  obtain ⟨st0, ts, stt0, et, tdo, tk, sa, n, pc0, kc, dc, ec, tc, ma⟩ := s
  unfold monitor_step_pre sleep1 update_status job_queue_node_update_status_simple
  dsimp only
  split_ifs
  all_goals first
    | exact ⟨env.poll pc0, pc0 + 1, some n, rfl, Or.inr rfl⟩
    | exact ⟨st0, pc0, some n, rfl, Or.inr rfl⟩
    | exact ⟨env.poll pc0, pc0 + 1, stt0, rfl, Or.inl rfl⟩
    | exact ⟨st0, pc0, stt0, rfl, Or.inl rfl⟩

/-- The kill phase of an iteration never changes the end time or the
clock. -/
theorem kill_phase_time_frame (cfg : NodeConfig) (t : NodeState) :
    (if should_be_killed cfg t then kill_policy cfg t else t).end_time = t.end_time
    ∧ (if should_be_killed cfg t then kill_policy cfg t else t).now = t.now := by
  by_cases h : should_be_killed cfg t
  · rw [if_pos h]
    unfold kill_policy kill job_queue_node_kill_simple
    dsimp only
    split_ifs <;> exact ⟨rfl, rfl⟩
  · rw [if_neg h]
    exact ⟨rfl, rfl⟩

/-- One full loop iteration on a state whose end time is a stale value
from a previous attempt (at or before the clock), under a nonzero (or
absent) configured max runtime: the stale end time survives, the start
time stays unset or at-or-after the stale end time, so runtime stays 0
and the iteration changes neither the timed-out flag nor the
timeout-callback record, and kills only a STOPPING worker. -/
theorem monitor_step_stale_end (cfg : NodeConfig) (env : Env) (s : NodeState)
    (e : Nat) (hm : ∀ m, cfg.max_runtime = some m → 0 < m)
    (hend : s.end_time = some e) (hnow : e ≤ s.now)
    (hstart : s.start_time = none ∨ ∃ t0, s.start_time = some t0 ∧ e ≤ t0) :
    (monitor_step cfg env s).end_time = some e
    ∧ e ≤ (monitor_step cfg env s).now
    ∧ ((monitor_step cfg env s).start_time = none
        ∨ ∃ t0, (monitor_step cfg env s).start_time = some t0 ∧ e ≤ t0)
    ∧ (monitor_step cfg env s).timed_out = s.timed_out
    ∧ (monitor_step cfg env s).timeout_calls = s.timeout_calls
    ∧ (monitor_step cfg env s).thread_status = s.thread_status
    ∧ (s.thread_status ≠ STOPPING →
        (monitor_step cfg env s).kill_calls = s.kill_calls) := by
  obtain ⟨st, pc, stt, hpre, hstt⟩ := monitor_step_pre_general env s
  have hstart' : stt = none ∨ ∃ t0, stt = some t0 ∧ e ≤ t0 := by
    cases hstt with
    | inl h => rw [h]; exact hstart
    | inr h => exact Or.inr ⟨s.now, h, hnow⟩
  have hrt : runtime { s with status := st, poll_count := pc, start_time := stt, now := s.now + 1 } = 0 :=
    runtime_stale _ e hend hstart'
  have hstep : monitor_step cfg env s =
      if should_be_killed cfg { s with status := st, poll_count := pc, start_time := stt, now := s.now + 1 } then
        kill_policy cfg { s with status := st, poll_count := pc, start_time := stt, now := s.now + 1 }
      else { s with status := st, poll_count := pc, start_time := stt, now := s.now + 1 } := by
    unfold monitor_step
    rw [hpre]
  obtain ⟨k1, k2, k3, k4, k5, k6⟩ := step_kill_phase_stuck cfg
    { s with status := st, poll_count := pc, start_time := stt, now := s.now + 1 } hm hrt
  obtain ⟨f1, f2⟩ := kill_phase_time_frame cfg
    { s with status := st, poll_count := pc, start_time := stt, now := s.now + 1 }
  rw [hstep]
  refine ⟨f1.trans hend, ?_, ?_, k3, k4, k5, fun hth => k6 hth⟩
  · rw [f2]
    exact Nat.le_succ_of_le hnow
  · rw [k2]
    exact hstart'

/-- Through the whole monitor loop, a stale end time from a previous
attempt keeps runtime frozen at 0: the timed-out flag, the
timeout-callback record, and (without a stop request) the Driver.kill
count are unchanged however long the loop runs. -/
theorem monitor_loop_stale_end (cfg : NodeConfig) (env : Env) (e : Nat) :
    ∀ fuel (s s' : NodeState),
    (∀ m, cfg.max_runtime = some m → 0 < m) →
    s.end_time = some e → e ≤ s.now →
    (s.start_time = none ∨ ∃ t0, s.start_time = some t0 ∧ e ≤ t0) →
    monitor_loop cfg env fuel s = some s' →
    runtime s' = 0 ∧ s'.timed_out = s.timed_out
    ∧ s'.timeout_calls = s.timeout_calls
    ∧ (s.thread_status ≠ STOPPING → s'.kill_calls = s.kill_calls) := by
  intro fuel
  induction fuel with
  | zero =>
    intro s s' hm hend hnow hstart hres
    unfold monitor_loop at hres
    by_cases hr : is_running s.status
    · rw [if_pos hr] at hres; cases hres
    · rw [if_neg hr] at hres
      cases hres
      exact ⟨runtime_stale s e hend hstart, rfl, rfl, fun _ => rfl⟩
  | succ fuel ih =>
    intro s s' hm hend hnow hstart hres
    unfold monitor_loop at hres
    by_cases hr : is_running s.status
    · rw [if_pos hr] at hres
      obtain ⟨q1, q2, q3, q4, q5, q6, q7⟩ :=
        monitor_step_stale_end cfg env s e hm hend hnow hstart
      obtain ⟨r1, r2, r3, r4⟩ := ih (monitor_step cfg env s) s' hm q1 q2 q3 hres
      refine ⟨r1, by rw [r2, q4], by rw [r3, q5], fun hth => ?_⟩
      rw [r4 (by rw [q6]; exact hth), q7 hth]
    · rw [if_neg hr] at hres
      cases hres
      exact ⟨runtime_stale s e hend hstart, rfl, rfl, fun _ => rfl⟩

/-- C9 (amended): every launching call of run resets the recorded start
time to None before starting the monitor (runtime reads 0 at launch),
but it does NOT reset the end time recorded at the end of the previous
attempt.  Consequently runtime is not measured per submission attempt:
on a retried attempt the stale end time keeps runtime frozen at 0 (end
minus start; negative in Python, truncated here) for the whole monitor
loop, so with a positive configured max runtime the runtime-based kill
policy never fires during a retried attempt — the timed-out flag stays
unchanged, the timeout callback is never invoked, and no kill happens
unless a stop was requested. -/
theorem claim_C9 :
    (∀ s : NodeState, s.thread_status ≠ STOPPING →
        (run s).2 = .startedMonitor ∧ (run s).1.start_time = none
        ∧ (run s).1.end_time = s.end_time ∧ runtime (run s).1 = 0)
    ∧ (∀ (cfg : NodeConfig) (env : Env) (fuel e : Nat) (s s' : NodeState),
        (∀ m, cfg.max_runtime = some m → 0 < m) →
        s.end_time = some e → e ≤ s.now → s.start_time = none →
        monitor_loop cfg env fuel s = some s' →
        runtime s' = 0 ∧ s'.timed_out = s.timed_out
        ∧ s'.timeout_calls = s.timeout_calls
        ∧ (s.thread_status ≠ STOPPING → s'.kill_calls = s.kill_calls)) := by
  constructor
  · intro s h
    refine ⟨?_, ?_, ?_, ?_⟩ <;> simp [run, wait_for, h, runtime]
  · intro cfg env fuel e s s' hm hend hnow hstart hres
    exact monitor_loop_stale_end cfg env e fuel s s' hm hend hnow (Or.inl hstart) hres

/-- A node that finished its first attempt at clock 3 with status EXIT
and was reset to worker READY for a retry. -/
def node_pre_retry : NodeState :=
  { initial_node with thread_status := READY, status := JOB_QUEUE_EXIT,
                      start_time := some 0, end_time := some 3, now := 3,
                      submit_attempt := 1 }

/-- A configuration with a two-second maximum runtime and a timeout
callback, for the retry scenarios. -/
def retry_cfg : NodeConfig :=
  { max_runtime := some 2, has_callback_timeout := true,
    callback_arguments := 8, done_callback := .returns true }

/-- An environment that reports RUNNING twice and then DONE. -/
def env_retry : Env :=
  { submit_result := fun _ => SUBMIT_OK,
    poll := fun k => if k < 2 then JOB_QUEUE_RUNNING else JOB_QUEUE_DONE }

/-- The retried attempt as the loop first sees it: RUNNING backend,
start time reset by run, stale end time 3 from the first attempt. -/
def node_retry_running : NodeState :=
  { initial_node with status := JOB_QUEUE_RUNNING, thread_status := RUNNING,
                      end_time := some 3, now := 3, submit_attempt := 2 }

/-- The state the retried attempt's loop exits with in the witness
scenario: a fresh start time was recorded at clock 3, the stale end
time survives, runtime stayed 0, no kill was attempted. -/
def node_retry_exit : NodeState :=
  { initial_node with status := JOB_QUEUE_DONE, thread_status := RUNNING,
                      start_time := some 3, end_time := some 3, now := 6,
                      poll_count := 3, submit_attempt := 2 }

/-- Witness for C9: run on the retried node resets the start time but
keeps end time 3; the retried attempt then runs three monitored seconds
with runtime frozen at 0, no timed-out flag and no kill. -/
theorem claim_C9_witness :
    node_pre_retry.thread_status ≠ STOPPING
    ∧ ((run node_pre_retry).2 = .startedMonitor
        ∧ (run node_pre_retry).1.start_time = none
        ∧ (run node_pre_retry).1.end_time = node_pre_retry.end_time
        ∧ runtime (run node_pre_retry).1 = 0)
    ∧ node_retry_running.end_time = some 3
    ∧ node_retry_running.start_time = none
    ∧ monitor_loop retry_cfg env_retry 5 node_retry_running = some node_retry_exit
    ∧ (runtime node_retry_exit = 0
        ∧ node_retry_exit.timed_out = node_retry_running.timed_out
        ∧ node_retry_exit.timeout_calls = node_retry_running.timeout_calls
        ∧ (node_retry_running.thread_status ≠ STOPPING →
            node_retry_exit.kill_calls = node_retry_running.kill_calls)) :=
  ⟨by decide, claim_C9.1 node_pre_retry (by decide), rfl, rfl, by decide,
    claim_C9.2 retry_cfg env_retry 5 3 node_retry_running node_retry_exit
      (fun m hm => by simp [retry_cfg] at hm; omega)
      rfl (by decide) rfl (by decide)⟩

/-- The retried attempt right after run, submit and the first poll, as
produced by the model's own flow: status RUNNING, start time reset to
none, stale end time 3 untouched. -/
def node_retry_entry : NodeState :=
  update_status env_always_running
    (submit_phase env_always_running (run node_pre_retry).1)

/-- Counterexample for C9 as stated: run resets only the start time.
Five monitored seconds into the retried attempt (clock 3 to 8, new
start time recorded at 3, max runtime 2, backend always RUNNING) a
per-attempt runtime clock would read 5 and the kill policy would have
fired; instead runtime still reads 0 because of the stale end time, no
kill was attempted and timed_out is false. -/
theorem claim_C9_counterexample :
    node_pre_retry.thread_status = READY
    ∧ node_pre_retry.end_time = some 3
    ∧ (run node_pre_retry).1.start_time = none
    ∧ (run node_pre_retry).1.end_time = some 3
    ∧ retry_cfg.max_runtime = some 2
    ∧ node_retry_entry.status = JOB_QUEUE_RUNNING
    ∧ ((monitor_step retry_cfg env_always_running)^[5] node_retry_entry).start_time
        = some 3
    ∧ ((monitor_step retry_cfg env_always_running)^[5] node_retry_entry).end_time
        = some 3
    ∧ ((monitor_step retry_cfg env_always_running)^[5] node_retry_entry).now = 8
    ∧ runtime ((monitor_step retry_cfg env_always_running)^[5] node_retry_entry) = 0
    ∧ ((monitor_step retry_cfg env_always_running)^[5] node_retry_entry).kill_calls
        = 0
    ∧ ((monitor_step retry_cfg env_always_running)^[5] node_retry_entry).timed_out
        = false := by
  decide
